import Mathlib

/-!
Verification of the flamingo population analytics script
(`src/flamingo_analysis.py`).

The script operates on one in-memory table (a pandas `DataFrame`).  We
embed the table shallowly: a cell is a rational number, a string, or a
null (pandas `NaN`); a data frame is an ordered association list of
column names to column vectors together with a row count.  Rationals
stand for the script's floating-point values; pandas' non-finite results
(NaN, and the infinities produced by division by zero) are collapsed
into `Cell.null`, which every arithmetic operation propagates, exactly
as NaN propagates through float arithmetic.
-/

/-- A cell of the table: a numeric value, a string value, or null
(pandas missing value / non-finite result). -/
inductive Cell where
  | num (q : ℚ)
  | str (s : String)
  | null
deriving DecidableEq

namespace Cell

/-- Numeric view of a cell; `none` for strings and nulls (pandas
numeric aggregations skip these). -/
def toQ? : Cell → Option ℚ
  | num q => some q
  | _ => none

/-- Is this cell the null cell? -/
def isNull : Cell → Bool
  | null => true
  | _ => false

/-- Elementwise subtraction as pandas performs it on columns: numeric
on numbers, null-propagating otherwise. -/
def sub : Cell → Cell → Cell
  | num a, num b => num (a - b)
  | _, _ => null

/-- Elementwise addition, null-propagating (float NaN semantics). -/
def add : Cell → Cell → Cell
  | num a, num b => num (a + b)
  | _, _ => null

/-- Elementwise multiplication, null-propagating. -/
def mul : Cell → Cell → Cell
  | num a, num b => num (a * b)
  | _, _ => null

/-- Elementwise division.  Division by zero yields a non-finite float
in the script (inf or NaN); we collapse those to `null`. -/
def div : Cell → Cell → Cell
  | num a, num b => if b = 0 then null else num (a / b)
  | _, _ => null

end Cell

/-- Column-oriented data frame: ordered list of (name, values) pairs
plus the row count, mirroring pandas' column-major table. -/
structure DataFrame where
  cols : List (String × List Cell)
  nrows : ℕ
deriving DecidableEq

/-- Look a column up by name in an association list of columns. -/
def lookupCol : List (String × List Cell) → String → Option (List Cell)
  | [], _ => none
  | p :: ps, c => if p.1 = c then some p.2 else lookupCol ps c

namespace DataFrame

/-- The values of column `c`, if present. -/
def col? (df : DataFrame) (c : String) : Option (List Cell) :=
  lookupCol df.cols c

/-- `c in df.columns` of pandas. -/
def hasCol (df : DataFrame) (c : String) : Bool :=
  (df.col? c).isSome

/-- The values of column `c`, defaulting to the empty column. -/
def colD (df : DataFrame) (c : String) : List Cell :=
  (df.col? c).getD []

/-- The cell of column `c` at row `i` (null when out of range). -/
def cell (df : DataFrame) (c : String) (i : ℕ) : Cell :=
  (df.colD c).getD i Cell.null

/-- Well-formedness: every column has `nrows` values and column names
are distinct, as for a frame loaded by `pd.read_csv`. -/
def WF (df : DataFrame) : Prop :=
  (∀ p ∈ df.cols, p.2.length = df.nrows) ∧ (df.cols.map Prod.fst).Nodup

instance (df : DataFrame) : Decidable df.WF := by
  unfold WF
  infer_instance

/-- `df[c] = vals` of pandas: overwrite the column in place if the name
exists, otherwise append a new column at the end. -/
def setCol (df : DataFrame) (c : String) (vals : List Cell) : DataFrame :=
  if (lookupCol df.cols c).isSome then
    ⟨df.cols.map (fun p => if p.1 = c then (p.1, vals) else p), df.nrows⟩
  else
    ⟨df.cols ++ [(c, vals)], df.nrows⟩

end DataFrame

/-- The exceptions the script can raise: the two load-time conditions
of `load_data`, pandas' `KeyError` for a missing column, and the
`ValueError` of `scipy.stats.shapiro` on undersized samples. -/
inductive PyError where
  | fileNotFound
  | loadFailure
  | keyError
  | shapiroError
deriving DecidableEq

deriving instance DecidableEq for Except

/-- One row's growth rate, line 89-90 of the script:
`(population_2023 - population_2020) / population_2020 * 100`. -/
def growthCell (p20 p23 : Cell) : Cell :=
  Cell.mul (Cell.div (Cell.sub p23 p20) p20) (Cell.num 100)

/-- The growth-rate assignment of `population_analysis` (lines 88-90):
guarded on both population columns, writes `df['growth_rate']`. -/
def addGrowthRate (df : DataFrame) : DataFrame :=
  if df.hasCol "population_2020" && df.hasCol "population_2023" then
    df.setCol "growth_rate"
      (List.zipWith (fun a b => growthCell a b)
        (df.colD "population_2020") (df.colD "population_2023"))
  else df

/-- The distinct group keys of a `groupby`: pandas drops rows whose
key is null. -/
def groupKeys (keyCol : List Cell) : List Cell :=
  (keyCol.filter (fun c => !c.isNull)).dedup

/-- The `groupby(key)[val].sum()` value for one group: sum of the
numeric `val` cells of the rows whose key equals `k` (pandas skips
nulls in the sum). -/
def groupSum (keyCol valCol : List Cell) (k : Cell) : ℚ :=
  (((keyCol.zip valCol).filterMap
    (fun p => if p.1 = k then p.2.toQ? else none))).sum

/-- `df.groupby(key)[val].sum()` as a list of (group, sum) pairs. -/
def groupbySum (keyCol valCol : List Cell) : List (Cell × ℚ) :=
  (groupKeys keyCol).map (fun k => (k, groupSum keyCol valCol k))

/-- The descending order `.sort_values(ascending=False)` sorts by. -/
def descOrder {β : Type} [LinearOrder β] (a b : Cell × β) : Prop :=
  b.2 ≤ a.2

instance {β : Type} [LinearOrder β] : DecidableRel (@descOrder β _) :=
  fun a b => inferInstanceAs (Decidable (b.2 ≤ a.2))

instance {β : Type} [LinearOrder β] : IsTotal (Cell × β) descOrder :=
  ⟨fun a b => le_total b.2 a.2⟩

instance {β : Type} [LinearOrder β] : IsTrans (Cell × β) descOrder :=
  ⟨fun _ _ _ h1 h2 => le_trans h2 h1⟩

/-- `.sort_values(ascending=False)`: sort by the numeric component,
largest first. -/
def sortDesc {β : Type} [LinearOrder β] (l : List (Cell × β)) : List (Cell × β) :=
  l.insertionSort descOrder

/-- The sorted group-sum series the breakdown loops over. -/
def sortedGroups (df : DataFrame) (key val : String) : List (Cell × ℚ) :=
  sortDesc (groupbySum (df.colD key) (df.colD val))

/-- The series total `series.sum()` used as the percentage denominator. -/
def breakdownTotal (df : DataFrame) (key val : String) : ℚ :=
  ((sortedGroups df key val).map (fun e => e.2)).sum

/-- Attach to each group its printed percentage
`(pop / series.sum()) * 100` (lines 105, 122). -/
def withPct (l : List (Cell × ℚ)) : List (Cell × ℚ × Cell) :=
  l.map (fun e =>
    (e.1, e.2,
      Cell.mul (Cell.div (Cell.num e.2) (Cell.num ((l.map (fun x => x.2)).sum)))
        (Cell.num 100)))

/-- A group-sum-sort-percentage breakdown as printed by the species and
region sections. -/
def breakdown (df : DataFrame) (key val : String) : List (Cell × ℚ × Cell) :=
  withPct (sortedGroups df key val)

/-- What `population_analysis` leaves behind: the (possibly mutated)
frame and the species breakdown it printed, if any. -/
structure PopResult where
  df : DataFrame
  species : Option (List (Cell × ℚ × Cell))
deriving DecidableEq

/-- `population_analysis` (lines 78-108).  The growth-rate block is
guarded on both population columns; the species block is guarded on
`species` only, and its `groupby('species')['population_2023']` raises
`KeyError` when `population_2023` is absent. -/
def populationAnalysis (df : DataFrame) : Except PyError PopResult :=
  let df1 := addGrowthRate df
  if df1.hasCol "species" then
    if df1.hasCol "population_2023" then
      Except.ok ⟨df1, some (breakdown df1 "species" "population_2023")⟩
    else Except.error PyError.keyError
  else Except.ok ⟨df1, none⟩

/-- Non-null cells of a column (`dropna`, and what `value_counts`
counts over). -/
def nonNull (col : List Cell) : List Cell :=
  col.filter (fun c => !c.isNull)

/-- `column.value_counts()`: occurrences of each distinct non-null
value, most frequent first. -/
def valueCounts (col : List Cell) : List (Cell × ℕ) :=
  sortDesc ((nonNull col).dedup.map (fun k => (k, col.count k)))

/-- The habitat section of `geographic_analysis` (lines 125-130):
counts per habitat value with percentage of the total row count. -/
def habitatSection (df : DataFrame) : Option (List (Cell × ℕ × Cell)) :=
  if df.hasCol "habitat_type" then
    some ((valueCounts (df.colD "habitat_type")).map (fun e =>
      (e.1, e.2,
        Cell.mul (Cell.div (Cell.num e.2) (Cell.num df.nrows)) (Cell.num 100))))
  else none

/-- What `geographic_analysis` printed: the region breakdown and the
habitat distribution, each `none` when its section was skipped. -/
structure GeoResult where
  region : Option (List (Cell × ℚ × Cell))
  habitat : Option (List (Cell × ℕ × Cell))
deriving DecidableEq

/-- `geographic_analysis` (lines 110-132).  The region block is guarded
on `region` only and raises `KeyError` when `population_2023` is
absent; the habitat block then never runs. -/
def geographicAnalysis (df : DataFrame) : Except PyError GeoResult :=
  if df.hasCol "region" then
    if df.hasCol "population_2023" then
      Except.ok ⟨some (breakdown df "region" "population_2023"), habitatSection df⟩
    else Except.error PyError.keyError
  else Except.ok ⟨none, habitatSection df⟩

/-- `conservation_status_analysis` (lines 134-148): a frequency count,
guarded on the column, read-only. -/
def conservationAnalysis (df : DataFrame) : Option (List (Cell × ℕ)) :=
  if df.hasCol "conservation_status" then
    some (valueCounts (df.colD "conservation_status"))
  else none

/-- `statistical_tests` (lines 150-171), guarded on `population_2023`;
drops nulls, prints summary statistics, then calls
`scipy.stats.shapiro`.  Modelled from scipy's documented contract:
`shapiro` raises a `ValueError` when the sample holds fewer than 3
observations; its p-value on larger samples is not modelled. -/
def statisticalTests (df : DataFrame) : Except PyError Unit :=
  if df.hasCol "population_2023" then
    if (nonNull (df.colD "population_2023")).length < 3 then
      Except.error PyError.shapiroError
    else Except.ok ()
  else Except.ok ()

/-- `generate_visualizations` (lines 173-211): chart 1 is guarded on
`species` but its `groupby('species')['population_2023']` raises
`KeyError` when `population_2023` is absent; chart 2 is guarded on
both `growth_rate` and `species`.  Returns the image files written. -/
def generateVisualizations (df : DataFrame) : Except PyError (List String) :=
  if df.hasCol "species" then
    if df.hasCol "population_2023" then
      Except.ok ("outputs/species_distribution.png" ::
        (if df.hasCol "growth_rate" then ["outputs/growth_rates.png"] else []))
    else Except.error PyError.keyError
  else Except.ok []

/-- One 70-character separator bar. -/
def bar (c : Char) : String :=
  String.mk (List.replicate 70 c)

/-- `generate_report` (lines 213-237): the text written to
`outputs/analysis_report.txt`, one `++` per `f.write`. -/
def generateReport (df : DataFrame) : String :=
  bar '=' ++ "\n" ++
  "FLAMINGO POPULATION DATA ANALYTICS REPORT\n" ++
  bar '=' ++ "\n\n" ++
  "PROJECT OVERVIEW\n" ++
  bar '-' ++ "\n" ++
  "This report contains a comprehensive analysis of global flamingo\n" ++
  "populations, including demographic trends, geographic distribution,\n" ++
  "and conservation status assessment.\n\n" ++
  "KEY STATISTICS\n" ++
  bar '-' ++ "\n" ++
  "Total Records Analyzed: " ++ toString df.nrows ++ "\n" ++
  "Date Generated: December 2025\n" ++
  "Analysis Period: 2020-2023\n\n" ++
  "For detailed analysis, see the main README.md file.\n"

/-- Modelled from the spec: the report is "a fixed-template plain-text
file" whose only interpolated dataset value is the record count; this
is that template as a function of the record count alone. -/
def reportTemplate (n : ℕ) : String :=
  bar '=' ++ "\n" ++
  "FLAMINGO POPULATION DATA ANALYTICS REPORT\n" ++
  bar '=' ++ "\n\n" ++
  "PROJECT OVERVIEW\n" ++
  bar '-' ++ "\n" ++
  "This report contains a comprehensive analysis of global flamingo\n" ++
  "populations, including demographic trends, geographic distribution,\n" ++
  "and conservation status assessment.\n\n" ++
  "KEY STATISTICS\n" ++
  bar '-' ++ "\n" ++
  "Total Records Analyzed: " ++ toString n ++ "\n" ++
  "Date Generated: December 2025\n" ++
  "Analysis Period: 2020-2023\n\n" ++
  "For detailed analysis, see the main README.md file.\n"

/-- `run_full_analysis` (lines 239-262) after a successful load: the
fixed step sequence, stopping at the first uncaught exception; on
success, the list of files written and the report text. -/
def runFullAnalysis (df : DataFrame) : Except PyError (List String × String) :=
  match populationAnalysis df with
  | Except.error e => Except.error e
  | Except.ok p =>
    match geographicAnalysis p.df with
    | Except.error e => Except.error e
    | Except.ok _ =>
      let _cons := conservationAnalysis p.df
      match statisticalTests p.df with
      | Except.error e => Except.error e
      | Except.ok _ =>
        match generateVisualizations p.df with
        | Except.error e => Except.error e
        | Except.ok files =>
          Except.ok (files ++ ["outputs/analysis_report.txt"], generateReport p.df)

/-- A file system for `load_data`: each present path maps to `some df`
when it parses as CSV and to `none` when parsing fails. -/
def lookupFile : List (String × Option DataFrame) → String → Option (Option DataFrame)
  | [], _ => none
  | p :: ps, s => if p.1 = s then some p.2 else lookupFile ps s

/-- `load_data` (lines 42-57): `FileNotFoundError` when the path is
absent, a generic load error on any other failure, both re-raised. -/
def loadData (fs : List (String × Option DataFrame)) (path : String) :
    Except PyError DataFrame :=
  match lookupFile fs path with
  | none => Except.error PyError.fileNotFound
  | some none => Except.error PyError.loadFailure
  | some (some df) => Except.ok df

/-- `main` (lines 265-273): construct (which loads) then run the full
pipeline; a load error propagates before any step runs. -/
def runMain (fs : List (String × Option DataFrame)) (path : String) :
    Except PyError (List String × String) :=
  match loadData fs path with
  | Except.error e => Except.error e
  | Except.ok df => runFullAnalysis df

/-- The output files a run left on disk: none when it raised (every
file write of the script happens after every point that can raise). -/
def writtenFiles (r : Except PyError (List String × String)) : List String :=
  match r with
  | Except.error _ => []
  | Except.ok pr => pr.1

/-- NaN-propagating sum of a list of cells, as summing the printed
float percentages would behave. -/
def cellSum (l : List Cell) : Cell :=
  l.foldr Cell.add (Cell.num 0)

/-- Total of the record counts of a printed counts section. -/
def countsSum (l : List (Cell × ℕ × Cell)) : ℕ :=
  (l.map (fun e => e.2.1)).sum

/-! ## Basic lemmas about the table embedding -/

theorem lookupCol_replace_self (l : List (String × List Cell)) (c : String)
    (vals : List Cell) (h : (lookupCol l c).isSome = true) :
    lookupCol (l.map (fun p => if p.1 = c then (p.1, vals) else p)) c = some vals := by
  induction l with
  | nil => simp [lookupCol] at h
  | cons p ps ih =>
    by_cases hp : p.1 = c
    · simp [lookupCol, hp]
    · simp only [lookupCol, hp, if_false, Option.isSome] at h ⊢
      exact ih h

theorem lookupCol_append_self (l : List (String × List Cell)) (c : String)
    (vals : List Cell) (h : lookupCol l c = none) :
    lookupCol (l ++ [(c, vals)]) c = some vals := by
  induction l with
  | nil => simp [lookupCol]
  | cons p ps ih =>
    by_cases hp : p.1 = c
    · simp [lookupCol, hp] at h
    · simp only [List.cons_append, lookupCol, hp, if_false] at h ⊢
      exact ih h

theorem lookupCol_replace_other (l : List (String × List Cell)) (c : String)
    (vals : List Cell) (c' : String) (hne : c' ≠ c) :
    lookupCol (l.map (fun p => if p.1 = c then (p.1, vals) else p)) c' = lookupCol l c' := by
  induction l with
  | nil => simp [lookupCol]
  | cons p ps ih =>
    by_cases hp : p.1 = c
    · have hcc : ¬ c = c' := fun h => hne h.symm
      simp [lookupCol, hp, hcc, ih]
    · simp only [List.map_cons, lookupCol, hp, if_false]
      by_cases hp' : p.1 = c'
      · simp [hp']
      · simp [hp', ih]

theorem lookupCol_append_other (l : List (String × List Cell)) (c : String)
    (vals : List Cell) (c' : String) (hne : c' ≠ c) :
    lookupCol (l ++ [(c, vals)]) c' = lookupCol l c' := by
  induction l with
  | nil =>
    have hcc : ¬ c = c' := fun h => hne h.symm
    simp [lookupCol, hcc]
  | cons p ps ih =>
    by_cases hp : p.1 = c'
    · simp [lookupCol, hp]
    · simp only [List.cons_append, lookupCol, hp, if_false]
      exact ih

theorem lookupCol_mem (l : List (String × List Cell)) (c : String) (v : List Cell)
    (h : lookupCol l c = some v) : (c, v) ∈ l := by
  induction l with
  | nil => simp [lookupCol] at h
  | cons p ps ih =>
    by_cases hp : p.1 = c
    · simp only [lookupCol, hp, if_true, Option.some.injEq] at h
      cases p
      simp_all
    · simp only [lookupCol, hp, if_false] at h
      exact List.mem_cons_of_mem _ (ih h)

theorem lookupCol_isSome_iff (l : List (String × List Cell)) (c : String) :
    (lookupCol l c).isSome = true ↔ c ∈ l.map Prod.fst := by
  induction l with
  | nil => simp [lookupCol]
  | cons p ps ih =>
    by_cases hp : p.1 = c
    · simp [lookupCol, hp]
    · have hcc : ¬ c = p.1 := fun h => hp h.symm
      simp [lookupCol, hp, hcc, ih]

theorem col?_setCol_self (df : DataFrame) (c : String) (vals : List Cell) :
    (df.setCol c vals).col? c = some vals := by
  unfold DataFrame.setCol DataFrame.col?
  by_cases h : (lookupCol df.cols c).isSome = true
  · simp only [h, if_true]
    exact lookupCol_replace_self df.cols c vals h
  · simp only [h, if_false]
    exact lookupCol_append_self df.cols c vals (Option.not_isSome_iff_eq_none.mp h)

theorem col?_setCol_other (df : DataFrame) (c : String) (vals : List Cell)
    (c' : String) (hne : c' ≠ c) :
    (df.setCol c vals).col? c' = df.col? c' := by
  unfold DataFrame.setCol DataFrame.col?
  by_cases h : (lookupCol df.cols c).isSome = true
  · simp only [h, if_true]
    exact lookupCol_replace_other df.cols c vals c' hne
  · simp only [h, if_false]
    exact lookupCol_append_other df.cols c vals c' hne

theorem nrows_setCol (df : DataFrame) (c : String) (vals : List Cell) :
    (df.setCol c vals).nrows = df.nrows := by
  unfold DataFrame.setCol
  by_cases h : (lookupCol df.cols c).isSome = true <;> simp [h]

theorem names_setCol_present (df : DataFrame) (c : String) (vals : List Cell)
    (h : (lookupCol df.cols c).isSome = true) :
    (df.setCol c vals).cols.map Prod.fst = df.cols.map Prod.fst := by
  unfold DataFrame.setCol
  simp only [h, if_true, List.map_map]
  apply List.map_congr_left
  intro p _
  by_cases hp : p.1 = c <;> simp [hp]

theorem names_setCol_absent (df : DataFrame) (c : String) (vals : List Cell)
    (h : ¬ (lookupCol df.cols c).isSome = true) :
    (df.setCol c vals).cols.map Prod.fst = df.cols.map Prod.fst ++ [c] := by
  unfold DataFrame.setCol
  simp [h]

/-! ## Lemmas about the growth-rate assignment -/

theorem nrows_addGrowthRate (df : DataFrame) :
    (addGrowthRate df).nrows = df.nrows := by
  unfold addGrowthRate
  by_cases h : (df.hasCol "population_2020" && df.hasCol "population_2023") = true
  · simp [h, nrows_setCol]
  · simp [h]

theorem col?_addGrowthRate_other (df : DataFrame) (c : String)
    (hc : c ≠ "growth_rate") : (addGrowthRate df).col? c = df.col? c := by
  unfold addGrowthRate
  by_cases h : (df.hasCol "population_2020" && df.hasCol "population_2023") = true
  · simp only [h, if_true]
    exact col?_setCol_other df "growth_rate" _ c hc
  · simp [h]

theorem hasCol_addGrowthRate_other (df : DataFrame) (c : String)
    (hc : c ≠ "growth_rate") : (addGrowthRate df).hasCol c = df.hasCol c := by
  unfold DataFrame.hasCol
  rw [col?_addGrowthRate_other df c hc]

theorem colD_addGrowthRate_other (df : DataFrame) (c : String)
    (hc : c ≠ "growth_rate") : (addGrowthRate df).colD c = df.colD c := by
  unfold DataFrame.colD
  rw [col?_addGrowthRate_other df c hc]

theorem sortedGroups_addGrowthRate (df : DataFrame) (key val : String)
    (hk : key ≠ "growth_rate") (hv : val ≠ "growth_rate") :
    sortedGroups (addGrowthRate df) key val = sortedGroups df key val := by
  unfold sortedGroups
  rw [colD_addGrowthRate_other df key hk, colD_addGrowthRate_other df val hv]

theorem breakdown_addGrowthRate (df : DataFrame) (key val : String)
    (hk : key ≠ "growth_rate") (hv : val ≠ "growth_rate") :
    breakdown (addGrowthRate df) key val = breakdown df key val := by
  unfold breakdown
  rw [sortedGroups_addGrowthRate df key val hk hv]

theorem breakdownTotal_addGrowthRate (df : DataFrame) (key val : String)
    (hk : key ≠ "growth_rate") (hv : val ≠ "growth_rate") :
    breakdownTotal (addGrowthRate df) key val = breakdownTotal df key val := by
  unfold breakdownTotal
  rw [sortedGroups_addGrowthRate df key val hk hv]

/-! ## Shape lemmas for `population_analysis` -/

theorem populationAnalysis_df (df : DataFrame) (out : PopResult)
    (h : populationAnalysis df = Except.ok out) : out.df = addGrowthRate df := by
  unfold populationAnalysis at h
  by_cases hs : (addGrowthRate df).hasCol "species" = true
  · by_cases h23 : (addGrowthRate df).hasCol "population_2023" = true
    · simp only [hs, h23, if_true, Except.ok.injEq] at h
      rw [← h]
    · simp [hs, h23] at h
  · simp only [if_neg hs, Except.ok.injEq] at h
    rw [← h]

theorem populationAnalysis_ok_of (df : DataFrame)
    (h : df.hasCol "species" = true → df.hasCol "population_2023" = true) :
    populationAnalysis df =
      Except.ok ⟨addGrowthRate df,
        if df.hasCol "species" = true then
          some (breakdown df "species" "population_2023")
        else none⟩ := by
  have hsp : (addGrowthRate df).hasCol "species" = df.hasCol "species" :=
    hasCol_addGrowthRate_other df "species" (by decide)
  have h23 : (addGrowthRate df).hasCol "population_2023" = df.hasCol "population_2023" :=
    hasCol_addGrowthRate_other df "population_2023" (by decide)
  have hb : breakdown (addGrowthRate df) "species" "population_2023" =
      breakdown df "species" "population_2023" :=
    breakdown_addGrowthRate df _ _ (by decide) (by decide)
  unfold populationAnalysis
  by_cases hs : df.hasCol "species" = true
  · simp [hsp, h23, hs, h hs, hb]
  · simp [hsp, hs, Bool.not_eq_true _ ▸ hs]

theorem populationAnalysis_error_of (df : DataFrame)
    (hs : df.hasCol "species" = true) (h23 : df.hasCol "population_2023" = false) :
    populationAnalysis df = Except.error PyError.keyError := by
  have hsp : (addGrowthRate df).hasCol "species" = df.hasCol "species" :=
    hasCol_addGrowthRate_other df "species" (by decide)
  have h23' : (addGrowthRate df).hasCol "population_2023" = df.hasCol "population_2023" :=
    hasCol_addGrowthRate_other df "population_2023" (by decide)
  unfold populationAnalysis
  simp [hsp, h23', hs, h23]

/-! ## Shape lemmas for `geographic_analysis` -/

theorem geographicAnalysis_ok_of (df : DataFrame)
    (h : df.hasCol "region" = true → df.hasCol "population_2023" = true) :
    geographicAnalysis df =
      Except.ok ⟨(if df.hasCol "region" = true then
          some (breakdown df "region" "population_2023") else none),
        habitatSection df⟩ := by
  unfold geographicAnalysis
  by_cases hr : df.hasCol "region" = true
  · simp [hr, h hr]
  · simp [hr, if_neg hr]

theorem geographicAnalysis_error_of (df : DataFrame)
    (hr : df.hasCol "region" = true) (h23 : df.hasCol "population_2023" = false) :
    geographicAnalysis df = Except.error PyError.keyError := by
  unfold geographicAnalysis
  simp [hr, h23]

/-! ## Index and sum lemmas -/

theorem zipWith_getD (f : Cell → Cell → Cell) :
    ∀ (a b : List Cell) (i : ℕ), i < a.length → i < b.length →
      (List.zipWith f a b).getD i Cell.null = f (a.getD i Cell.null) (b.getD i Cell.null) := by
  intro a
  induction a with
  | nil => intro b i h _; simp at h
  | cons x xs ih =>
    intro b i ha hb
    cases b with
    | nil => simp at hb
    | cons y ys =>
      cases i with
      | zero => simp
      | succ j =>
        simp only [List.zipWith_cons_cons, List.getD_cons_succ]
        exact ih ys j (Nat.lt_of_succ_lt_succ ha) (Nat.lt_of_succ_lt_succ hb)

theorem cellSum_map_num (qs : List ℚ) :
    cellSum (qs.map Cell.num) = Cell.num qs.sum := by
  induction qs with
  | nil => simp [cellSum]
  | cons q rest ih =>
    simp only [List.map_cons, cellSum, List.foldr_cons, List.sum_cons]
    have : (List.map Cell.num rest).foldr Cell.add (Cell.num 0) = Cell.num rest.sum := ih
    rw [this, Cell.add]

/-! ## Concrete tables used by witnesses and counterexamples -/

/-- The two-row example of the spec's section 8. -/
def dfC1 : DataFrame :=
  ⟨[("population_2020", [Cell.num 100, Cell.num 200]),
    ("population_2023", [Cell.num 150, Cell.num 180])], 2⟩

/-- A table with a `species` column but no `population_2023`. -/
def dfSpeciesOnly : DataFrame := ⟨[("species", [Cell.str "Greater Flamingo"])], 1⟩

/-- A table with a `region` column but no `population_2023`. -/
def dfRegionOnly : DataFrame := ⟨[("region", [Cell.str "Africa"])], 1⟩

/-- A table with neither `species`, `region` nor `habitat_type`. -/
def dfBare : DataFrame := ⟨[("population_2020", [Cell.num 10])], 1⟩

/-- A table whose only `population_2023` value is missing: the species
group sum is 0, so every printed percentage is NaN. -/
def dfZeroTotal : DataFrame :=
  ⟨[("species", [Cell.str "Andean Flamingo"]), ("population_2023", [Cell.null])], 1⟩

/-- `population_2023` present with only two non-null observations. -/
def dfTwoVals : DataFrame :=
  ⟨[("population_2023", [Cell.num 5, Cell.null, Cell.num 7])], 3⟩

/-- Two tables with different content but the same row count. -/
def dfRep1 : DataFrame := ⟨[("species", [Cell.str "Lesser Flamingo"])], 1⟩

/-- See `dfRep1`. -/
def dfRep2 : DataFrame := ⟨[("region", [Cell.str "Asia"])], 1⟩

/-- An empty file system: no file at any path. -/
def fsMissing : List (String × Option DataFrame) := []

/-- A file system whose only file fails to parse. -/
def fsBroken : List (String × Option DataFrame) := [("data/flamingo_data.csv", none)]

/-! ## Claim C1 -/

/-- Claim C1: for every dataset that has both the `population_2020` and
`population_2023` columns, after `population_analysis` runs the dataset
has a `growth_rate` column and, for every row, `growth_rate =
(population_2023 - population_2020) / population_2020 * 100` exactly
(in the embedding's exact arithmetic, with null propagation for missing
values and division by zero). -/
theorem growth_rate_exact (df : DataFrame) (hwf : df.WF)
    (h20 : df.hasCol "population_2020" = true)
    (h23 : df.hasCol "population_2023" = true) :
    ∃ out : PopResult, populationAnalysis df = Except.ok out ∧
      out.df.hasCol "growth_rate" = true ∧
      ∀ i : ℕ, i < df.nrows →
        out.df.cell "growth_rate" i =
          Cell.mul (Cell.div
            (Cell.sub (df.cell "population_2023" i) (df.cell "population_2020" i))
            (df.cell "population_2020" i)) (Cell.num 100) := by
  obtain ⟨l20, hl20⟩ := Option.isSome_iff_exists.mp h20
  obtain ⟨l23, hl23⟩ := Option.isSome_iff_exists.mp h23
  have hlen20 : l20.length = df.nrows := hwf.1 _ (lookupCol_mem df.cols _ l20 hl20)
  have hlen23 : l23.length = df.nrows := hwf.1 _ (lookupCol_mem df.cols _ l23 hl23)
  have hag : addGrowthRate df =
      df.setCol "growth_rate"
        (List.zipWith (fun a b => growthCell a b)
          (df.colD "population_2020") (df.colD "population_2023")) := by
    unfold addGrowthRate
    rw [h20, h23]
    rfl
  refine ⟨⟨addGrowthRate df,
      if df.hasCol "species" = true then
        some (breakdown df "species" "population_2023") else none⟩,
    populationAnalysis_ok_of df (fun _ => h23), ?_, ?_⟩
  · show (addGrowthRate df).hasCol "growth_rate" = true
    rw [hag]
    unfold DataFrame.hasCol
    rw [col?_setCol_self]
    rfl
  · intro i hi
    show (addGrowthRate df).cell "growth_rate" i = _
    rw [hag]
    unfold DataFrame.cell DataFrame.colD
    rw [col?_setCol_self]
    simp only [Option.getD_some]
    rw [hl20, hl23]
    simp only [Option.getD_some]
    rw [zipWith_getD _ l20 l23 i (hlen20 ▸ hi) (hlen23 ▸ hi)]
    rfl

/-- Witness for C1 at the spec's own two-row example table. -/
theorem growth_rate_exact_witness :
    dfC1.WF ∧ dfC1.hasCol "population_2020" = true ∧ dfC1.hasCol "population_2023" = true ∧
    (∃ out : PopResult, populationAnalysis dfC1 = Except.ok out ∧
      out.df.hasCol "growth_rate" = true ∧
      ∀ i : ℕ, i < dfC1.nrows →
        out.df.cell "growth_rate" i =
          Cell.mul (Cell.div
            (Cell.sub (dfC1.cell "population_2023" i) (dfC1.cell "population_2020" i))
            (dfC1.cell "population_2020" i)) (Cell.num 100)) :=
  ⟨by decide, by decide, by decide,
    growth_rate_exact dfC1 (by decide) (by decide) (by decide)⟩

/-! ## Claim C2 -/

/-- Claim C2 is false as stated: with `species` present and
`population_2023` absent, `population_analysis` raises `KeyError`
(line 103 accesses the column unguarded), and likewise
`geographic_analysis` with `region` present (line 120). -/
theorem guard_skip_counterexample :
    dfSpeciesOnly.hasCol "species" = true ∧
    dfSpeciesOnly.hasCol "population_2023" = false ∧
    populationAnalysis dfSpeciesOnly = Except.error PyError.keyError ∧
    dfRegionOnly.hasCol "region" = true ∧
    dfRegionOnly.hasCol "population_2023" = false ∧
    geographicAnalysis dfRegionOnly = Except.error PyError.keyError := by decide

/-- Claim C2 amended: an analysis block is skipped, without error, when
its own guard column is absent, but the species and region breakdowns
guard only on `species` resp. `region` while accessing
`population_2023` unguarded: `population_analysis`
(resp. `geographic_analysis`) completes without error precisely when
`species` (resp. `region`) is absent or `population_2023` is present. -/
theorem guard_skip_amended (df : DataFrame) :
    ((populationAnalysis df).isOk = (!df.hasCol "species" || df.hasCol "population_2023")) ∧
    ((geographicAnalysis df).isOk = (!df.hasCol "region" || df.hasCol "population_2023")) ∧
    (df.hasCol "species" = false →
      populationAnalysis df = Except.ok ⟨addGrowthRate df, none⟩) ∧
    (df.hasCol "region" = false →
      geographicAnalysis df = Except.ok ⟨none, habitatSection df⟩) ∧
    (df.hasCol "habitat_type" = false → habitatSection df = none) := by
  refine ⟨?_, ?_, ?_, ?_, ?_⟩
  · by_cases hs : df.hasCol "species" = true
    · by_cases h23 : df.hasCol "population_2023" = true
      · rw [populationAnalysis_ok_of df (fun _ => h23), hs, h23]
        rfl
      · have h23' : df.hasCol "population_2023" = false := by
          rw [Bool.not_eq_true] at h23; exact h23
        rw [populationAnalysis_error_of df hs h23', hs, h23']
        rfl
    · have hs' : df.hasCol "species" = false := by
        rw [Bool.not_eq_true] at hs; exact hs
      rw [populationAnalysis_ok_of df (fun h => absurd h hs), hs']
      rfl
  · by_cases hr : df.hasCol "region" = true
    · by_cases h23 : df.hasCol "population_2023" = true
      · rw [geographicAnalysis_ok_of df (fun _ => h23), hr, h23]
        rfl
      · have h23' : df.hasCol "population_2023" = false := by
          rw [Bool.not_eq_true] at h23; exact h23
        rw [geographicAnalysis_error_of df hr h23', hr, h23']
        rfl
    · have hr' : df.hasCol "region" = false := by
        rw [Bool.not_eq_true] at hr; exact hr
      rw [geographicAnalysis_ok_of df (fun h => absurd h hr), hr']
      rfl
  · intro hs
    rw [populationAnalysis_ok_of df (fun h => absurd h (by simp [hs]))]
    simp [hs]
  · intro hr
    rw [geographicAnalysis_ok_of df (fun h => absurd h (by simp [hr]))]
    simp [hr]
  · intro hh
    unfold habitatSection
    simp [hh]

/-- Witness for the amended C2: a table with none of the guard columns
runs both steps without error, each section silently skipped. -/
theorem guard_skip_amended_witness :
    populationAnalysis dfBare = Except.ok ⟨addGrowthRate dfBare, none⟩ ∧
    geographicAnalysis dfBare = Except.ok ⟨none, habitatSection dfBare⟩ ∧
    habitatSection dfBare = none :=
  ⟨(guard_skip_amended dfBare).2.2.1 (by decide),
   (guard_skip_amended dfBare).2.2.2.1 (by decide),
   (guard_skip_amended dfBare).2.2.2.2 (by decide)⟩

/-! ## Claim C9 -/

/-- Claim C9: a dataset whose `population_2023` column is present but
holds fewer than 3 non-null values makes `statistical_tests` raise
from the Shapiro-Wilk test; the presence guard alone does not make the
statistics step complete. -/
theorem shapiro_small_sample :
    dfTwoVals.hasCol "population_2023" = true ∧
    (nonNull (dfTwoVals.colD "population_2023")).length = 2 ∧
    statisticalTests dfTwoVals = Except.error PyError.shapiroError := by decide

/-! ## Claim C10 -/

/-- Claim C10: `generate_report` writes byte-identical text for any two
loaded datasets with the same number of rows; nothing but the row count
flows into the report. -/
theorem report_rowcount_only (df1 df2 : DataFrame) (h : df1.nrows = df2.nrows) :
    generateReport df1 = generateReport df2 := by
  unfold generateReport
  rw [h]

/-- Witness for C10: two tables with disjoint columns and values but
one row each get the same report text. -/
theorem report_rowcount_only_witness :
    dfRep1.nrows = dfRep2.nrows ∧ generateReport dfRep1 = generateReport dfRep2 :=
  ⟨rfl, report_rowcount_only dfRep1 dfRep2 rfl⟩

/-! ## Claim C7 -/

/-- Claim C7: loading a path that does not exist raises the
file-not-found error, re-raised with no retry or fallback, and produces
no output files; any other load failure raises the generic load error,
likewise re-raised with no files written. -/
theorem load_error_handling (fs : List (String × Option DataFrame)) (path : String) :
    (lookupFile fs path = none →
      runMain fs path = Except.error PyError.fileNotFound ∧
      writtenFiles (runMain fs path) = []) ∧
    (lookupFile fs path = some none →
      runMain fs path = Except.error PyError.loadFailure ∧
      writtenFiles (runMain fs path) = []) := by
  constructor
  · intro h
    have hl : loadData fs path = Except.error PyError.fileNotFound := by
      unfold loadData
      rw [h]
    constructor
    · unfold runMain
      rw [hl]
    · unfold writtenFiles runMain
      rw [hl]
  · intro h
    have hl : loadData fs path = Except.error PyError.loadFailure := by
      unfold loadData
      rw [h]
    constructor
    · unfold runMain
      rw [hl]
    · unfold writtenFiles runMain
      rw [hl]

/-- Witness for C7: an absent path and an unparseable file. -/
theorem load_error_handling_witness :
    (runMain fsMissing "data/flamingo_data.csv" = Except.error PyError.fileNotFound ∧
      writtenFiles (runMain fsMissing "data/flamingo_data.csv") = []) ∧
    (runMain fsBroken "data/flamingo_data.csv" = Except.error PyError.loadFailure ∧
      writtenFiles (runMain fsBroken "data/flamingo_data.csv") = []) :=
  ⟨(load_error_handling fsMissing "data/flamingo_data.csv").1 (by decide),
   (load_error_handling fsBroken "data/flamingo_data.csv").2 (by decide)⟩

/-! ## Claim C8 -/

/-- Claim C8: when `population_analysis` runs on a dataset with the
`species` column (and the `population_2023` column its breakdown
accesses), the printed species breakdown has exactly the distinct
non-null species as groups, each with the group's `population_2023`
sum and that sum's percentage of the cross-species total, listed in
descending order of the sums. -/
theorem species_breakdown_spec (df : DataFrame)
    (hs : df.hasCol "species" = true) (h23 : df.hasCol "population_2023" = true) :
    ∃ out l, populationAnalysis df = Except.ok out ∧ out.species = some l ∧
      List.Perm (l.map (fun e => e.1)) (groupKeys (df.colD "species")) ∧
      (∀ e ∈ l,
        e.2.1 = groupSum (df.colD "species") (df.colD "population_2023") e.1 ∧
        e.2.2 = Cell.mul (Cell.div (Cell.num e.2.1)
          (Cell.num (breakdownTotal df "species" "population_2023"))) (Cell.num 100)) ∧
      List.Pairwise (fun a b => b.2.1 ≤ a.2.1) l := by
  refine ⟨_, breakdown df "species" "population_2023",
    populationAnalysis_ok_of df (fun _ => h23), by rw [if_pos hs], ?_, ?_, ?_⟩
  · have h1 : (breakdown df "species" "population_2023").map (fun e => e.1) =
        (sortedGroups df "species" "population_2023").map (fun e => e.1) := by
      unfold breakdown withPct
      rw [List.map_map]
      rfl
    rw [h1]
    have h2 : List.Perm (sortedGroups df "species" "population_2023")
        (groupbySum (df.colD "species") (df.colD "population_2023")) :=
      List.perm_insertionSort _ _
    have h3 := h2.map (fun e : Cell × ℚ => e.1)
    have h4 : (groupbySum (df.colD "species") (df.colD "population_2023")).map
        (fun e => e.1) = groupKeys (df.colD "species") := by
      unfold groupbySum
      rw [List.map_map]
      exact List.map_id _
    rw [h4] at h3
    exact h3
  · intro e he
    unfold breakdown withPct at he
    obtain ⟨s, hsmem, hse⟩ := List.mem_map.mp he
    have hs2 : s ∈ groupbySum (df.colD "species") (df.colD "population_2023") :=
      (List.perm_insertionSort _ _).mem_iff.mp hsmem
    obtain ⟨k, _, hks⟩ := List.mem_map.mp hs2
    constructor
    · rw [← hse, ← hks]
    · rw [← hse]
      rfl
  · unfold breakdown withPct
    rw [List.pairwise_map]
    have hsorted : List.Sorted descOrder (sortedGroups df "species" "population_2023") :=
      List.sorted_insertionSort _ _
    exact hsorted

/-- A two-species table for the C8 witness. -/
def dfTwoSpecies : DataFrame :=
  ⟨[("species", [Cell.str "Greater Flamingo", Cell.str "Lesser Flamingo"]),
    ("population_2023", [Cell.num 150, Cell.num 180])], 2⟩

/-- Witness for C8 on a concrete two-species table. -/
theorem species_breakdown_spec_witness :
    ∃ out l, populationAnalysis dfTwoSpecies = Except.ok out ∧ out.species = some l ∧
      List.Perm (l.map (fun e => e.1)) (groupKeys (dfTwoSpecies.colD "species")) ∧
      (∀ e ∈ l,
        e.2.1 = groupSum (dfTwoSpecies.colD "species")
          (dfTwoSpecies.colD "population_2023") e.1 ∧
        e.2.2 = Cell.mul (Cell.div (Cell.num e.2.1)
          (Cell.num (breakdownTotal dfTwoSpecies "species" "population_2023")))
          (Cell.num 100)) ∧
      List.Pairwise (fun a b => b.2.1 ≤ a.2.1) l :=
  species_breakdown_spec dfTwoSpecies (by decide) (by decide)

/-! ## Claim C3 -/

/-- For any group-sum-sort-percentage breakdown whose series total is
nonzero, the printed percentages sum to exactly 100. -/
theorem breakdown_pct_sum (df : DataFrame) (key val : String)
    (hT : breakdownTotal df key val ≠ 0) :
    cellSum ((breakdown df key val).map (fun e => e.2.2)) = Cell.num 100 := by
  have hmap : (breakdown df key val).map (fun e => e.2.2) =
      ((sortedGroups df key val).map
        (fun e => e.2 / breakdownTotal df key val * 100)).map Cell.num := by
    unfold breakdown withPct
    rw [List.map_map, List.map_map]
    apply List.map_congr_left
    intro e _
    show Cell.mul (Cell.div (Cell.num e.2)
      (Cell.num (breakdownTotal df key val))) (Cell.num 100) = _
    rw [Cell.div, if_neg hT, Cell.mul]
    rfl
  rw [hmap, cellSum_map_num]
  have hsum : ((sortedGroups df key val).map
      (fun e => e.2 / breakdownTotal df key val * 100)).sum = 100 := by
    have hcongr : (sortedGroups df key val).map
        (fun e => e.2 / breakdownTotal df key val * 100) =
        (sortedGroups df key val).map
        (fun e => e.2 * (100 / breakdownTotal df key val)) := by
      apply List.map_congr_left
      intro e _
      rw [div_mul_eq_mul_div, mul_div_assoc]
    rw [hcongr,
      List.sum_map_mul_right (sortedGroups df key val) (fun e => e.2)
        (100 / breakdownTotal df key val)]
    have hTdef : ((sortedGroups df key val).map (fun e => e.2)).sum =
        breakdownTotal df key val := rfl
    rw [hTdef, mul_comm, div_mul_cancel₀ _ hT]
  rw [hsum]

/-- For any breakdown whose series total is zero, every printed
percentage is NaN (the script computes `pop / 0 * 100`). -/
theorem breakdown_pct_nan (df : DataFrame) (key val : String)
    (hT : breakdownTotal df key val = 0) :
    ∀ e ∈ breakdown df key val, e.2.2 = Cell.null := by
  intro e he
  unfold breakdown withPct at he
  obtain ⟨s, _, hse⟩ := List.mem_map.mp he
  rw [← hse]
  show Cell.mul (Cell.div (Cell.num s.2)
      (Cell.num (((sortedGroups df key val).map (fun x => x.2)).sum)))
    (Cell.num 100) = Cell.null
  have h0 : (((sortedGroups df key val).map (fun x => x.2)).sum : ℚ) = 0 := hT
  rw [Cell.div, if_pos h0]
  rfl

/-- Claim C3 amended: whenever the species breakdown of
`population_analysis` or the region breakdown of `geographic_analysis`
runs and its cross-group total is nonzero, the printed per-group
percentages sum to exactly 100 (the script's float arithmetic reaches
this within tolerance); when the total is zero, every printed
percentage is NaN and no sum of 100 is printed. -/
theorem pct_sum_100_amended (df : DataFrame) :
    (df.hasCol "species" = true → df.hasCol "population_2023" = true →
      ∃ out l, populationAnalysis df = Except.ok out ∧ out.species = some l ∧
        (breakdownTotal df "species" "population_2023" ≠ 0 →
          cellSum (l.map (fun e => e.2.2)) = Cell.num 100) ∧
        (breakdownTotal df "species" "population_2023" = 0 →
          ∀ e ∈ l, e.2.2 = Cell.null)) ∧
    (df.hasCol "region" = true → df.hasCol "population_2023" = true →
      ∃ g l, geographicAnalysis df = Except.ok g ∧ g.region = some l ∧
        (breakdownTotal df "region" "population_2023" ≠ 0 →
          cellSum (l.map (fun e => e.2.2)) = Cell.num 100) ∧
        (breakdownTotal df "region" "population_2023" = 0 →
          ∀ e ∈ l, e.2.2 = Cell.null)) := by
  constructor
  · intro hs h23
    refine ⟨_, breakdown df "species" "population_2023",
      populationAnalysis_ok_of df (fun _ => h23), by rw [if_pos hs], ?_, ?_⟩
    · exact fun hT => breakdown_pct_sum df "species" "population_2023" hT
    · exact fun hT => breakdown_pct_nan df "species" "population_2023" hT
  · intro hr h23
    refine ⟨_, breakdown df "region" "population_2023",
      geographicAnalysis_ok_of df (fun _ => h23), by rw [if_pos hr], ?_, ?_⟩
    · exact fun hT => breakdown_pct_sum df "region" "population_2023" hT
    · exact fun hT => breakdown_pct_nan df "region" "population_2023" hT

/-- A region table whose only `population_2023` value is missing. -/
def dfZeroRegion : DataFrame :=
  ⟨[("region", [Cell.str "Africa"]), ("population_2023", [Cell.null])], 1⟩

/-- Claim C3 is false as stated, for both breakdowns: on a one-row
table whose `population_2023` value is missing, the species breakdown
(and likewise the region breakdown) runs but the group total is 0, the
printed percentage is NaN, and the percentages do not sum to 100. -/
theorem pct_sum_counterexample :
    dfZeroTotal.hasCol "species" = true ∧
    dfZeroTotal.hasCol "population_2023" = true ∧
    populationAnalysis dfZeroTotal =
      Except.ok ⟨dfZeroTotal, some [(Cell.str "Andean Flamingo", 0, Cell.null)]⟩ ∧
    dfZeroRegion.hasCol "region" = true ∧
    dfZeroRegion.hasCol "population_2023" = true ∧
    geographicAnalysis dfZeroRegion =
      Except.ok ⟨some [(Cell.str "Africa", 0, Cell.null)], none⟩ ∧
    cellSum ([(Cell.str "Andean Flamingo", (0 : ℚ), Cell.null)].map (fun e => e.2.2)) ≠
      Cell.num 100 ∧
    cellSum ([(Cell.str "Africa", (0 : ℚ), Cell.null)].map (fun e => e.2.2)) ≠
      Cell.num 100 := by
  refine ⟨by decide, by decide, ?_, by decide, by decide, ?_, by decide, by decide⟩
  · rw [populationAnalysis_ok_of dfZeroTotal (fun _ => by decide), if_pos (by decide)]
    have h1 : addGrowthRate dfZeroTotal = dfZeroTotal := by decide
    rw [h1]
    have hbs : groupbySum (dfZeroTotal.colD "species")
        (dfZeroTotal.colD "population_2023") =
        [(Cell.str "Andean Flamingo", (0 : ℚ))] := by decide
    have hsort : sortDesc [(Cell.str "Andean Flamingo", (0 : ℚ))] =
        [(Cell.str "Andean Flamingo", (0 : ℚ))] := by decide
    unfold breakdown sortedGroups
    rw [hbs, hsort]
    simp [withPct, Cell.div, Cell.mul]
  · rw [geographicAnalysis_ok_of dfZeroRegion (fun _ => by decide), if_pos (by decide)]
    have hhab : habitatSection dfZeroRegion = none := by decide
    rw [hhab]
    have hbs : groupbySum (dfZeroRegion.colD "region")
        (dfZeroRegion.colD "population_2023") =
        [(Cell.str "Africa", (0 : ℚ))] := by decide
    have hsort : sortDesc [(Cell.str "Africa", (0 : ℚ))] =
        [(Cell.str "Africa", (0 : ℚ))] := by decide
    unfold breakdown sortedGroups
    rw [hbs, hsort]
    simp [withPct, Cell.div, Cell.mul]

/-- A one-species table with a nonzero population total. -/
def dfOneSpecies : DataFrame :=
  ⟨[("species", [Cell.str "James Flamingo"]), ("population_2023", [Cell.num 120])], 1⟩

/-- A one-region table with a nonzero population total. -/
def dfOneRegion : DataFrame :=
  ⟨[("region", [Cell.str "South America"]), ("population_2023", [Cell.num 120])], 1⟩

/-- Witness for the amended C3 at tables with nonzero totals, one per
breakdown; the nonzero-total conjuncts show the sum-to-100 branch is
the one exercised there. -/
theorem pct_sum_100_witness :
    breakdownTotal dfOneSpecies "species" "population_2023" ≠ 0 ∧
    breakdownTotal dfOneRegion "region" "population_2023" ≠ 0 ∧
    (∃ out l, populationAnalysis dfOneSpecies = Except.ok out ∧ out.species = some l ∧
      (breakdownTotal dfOneSpecies "species" "population_2023" ≠ 0 →
        cellSum (l.map (fun e => e.2.2)) = Cell.num 100) ∧
      (breakdownTotal dfOneSpecies "species" "population_2023" = 0 →
        ∀ e ∈ l, e.2.2 = Cell.null)) ∧
    (∃ g l, geographicAnalysis dfOneRegion = Except.ok g ∧ g.region = some l ∧
      (breakdownTotal dfOneRegion "region" "population_2023" ≠ 0 →
        cellSum (l.map (fun e => e.2.2)) = Cell.num 100) ∧
      (breakdownTotal dfOneRegion "region" "population_2023" = 0 →
        ∀ e ∈ l, e.2.2 = Cell.null)) :=
  ⟨by
    have hbs : groupbySum (dfOneSpecies.colD "species")
        (dfOneSpecies.colD "population_2023") =
        [(Cell.str "James Flamingo", (120 : ℚ))] := by
      simp [groupbySum, groupKeys, groupSum, dfOneSpecies, DataFrame.colD,
        DataFrame.col?, lookupCol, Cell.isNull, Cell.toQ?]
    have hsort : sortDesc [(Cell.str "James Flamingo", (120 : ℚ))] =
        [(Cell.str "James Flamingo", (120 : ℚ))] := by decide
    unfold breakdownTotal sortedGroups
    rw [hbs, hsort]
    norm_num,
   by
    have hbs : groupbySum (dfOneRegion.colD "region")
        (dfOneRegion.colD "population_2023") =
        [(Cell.str "South America", (120 : ℚ))] := by
      simp [groupbySum, groupKeys, groupSum, dfOneRegion, DataFrame.colD,
        DataFrame.col?, lookupCol, Cell.isNull, Cell.toQ?]
    have hsort : sortDesc [(Cell.str "South America", (120 : ℚ))] =
        [(Cell.str "South America", (120 : ℚ))] := by decide
    unfold breakdownTotal sortedGroups
    rw [hbs, hsort]
    norm_num,
   (pct_sum_100_amended dfOneSpecies).1 (by decide) (by decide),
   (pct_sum_100_amended dfOneRegion).2 (by decide) (by decide)⟩

/-! ## Claim C4 -/

/-- Claim C4 amended: the per-habitat record counts printed by
`geographic_analysis` sum to the number of rows whose `habitat_type`
is non-null (`value_counts` drops nulls); when no habitat value is
missing this equals the total row count. -/
theorem habitat_counts_amended (df : DataFrame)
    (hh : df.hasCol "habitat_type" = true)
    (hreg : df.hasCol "region" = true → df.hasCol "population_2023" = true) :
    ∃ g hl, geographicAnalysis df = Except.ok g ∧ g.habitat = some hl ∧
      countsSum hl = (nonNull (df.colD "habitat_type")).length ∧
      (df.WF → (∀ c ∈ df.colD "habitat_type", c ≠ Cell.null) →
        countsSum hl = df.nrows) := by
  have hcount : countsSum ((valueCounts (df.colD "habitat_type")).map (fun e =>
      (e.1, e.2, Cell.mul (Cell.div (Cell.num e.2) (Cell.num df.nrows)) (Cell.num 100)))) =
      (nonNull (df.colD "habitat_type")).length := by
    unfold countsSum
    rw [List.map_map]
    have h1 : ((valueCounts (df.colD "habitat_type")).map
        ((fun e : Cell × ℕ × Cell => e.2.1) ∘ (fun e : Cell × ℕ =>
          (e.1, e.2, Cell.mul (Cell.div (Cell.num e.2) (Cell.num df.nrows))
            (Cell.num 100))))).sum =
        ((valueCounts (df.colD "habitat_type")).map (fun e => e.2)).sum := rfl
    rw [h1]
    have h2 : List.Perm ((valueCounts (df.colD "habitat_type")).map (fun e => e.2))
        (((nonNull (df.colD "habitat_type")).dedup.map
          (fun k => (k, (df.colD "habitat_type").count k))).map (fun e => e.2)) :=
      (List.perm_insertionSort _ _).map _
    rw [h2.sum_eq, List.map_map]
    have h3 : ((nonNull (df.colD "habitat_type")).dedup.map
        ((fun e : Cell × ℕ => e.2) ∘ (fun k => (k, (df.colD "habitat_type").count k)))) =
        ((nonNull (df.colD "habitat_type")).dedup.map
          (fun k => (nonNull (df.colD "habitat_type")).count k)) := by
      apply List.map_congr_left
      intro k hk
      have hk2 : (fun c : Cell => !c.isNull) k = true :=
        (List.mem_filter.mp (List.mem_dedup.mp hk)).2
      show (df.colD "habitat_type").count k = _
      exact (List.count_filter (p := fun c : Cell => !c.isNull) (a := k)
        (l := df.colD "habitat_type") hk2).symm
    rw [h3]
    exact List.sum_map_count_dedup_eq_length (nonNull (df.colD "habitat_type"))
  refine ⟨_, (valueCounts (df.colD "habitat_type")).map (fun e =>
      (e.1, e.2, Cell.mul (Cell.div (Cell.num e.2) (Cell.num df.nrows)) (Cell.num 100))),
    geographicAnalysis_ok_of df hreg, ?_, hcount, ?_⟩
  · show habitatSection df = _
    unfold habitatSection
    rw [if_pos hh]
  · intro hwf hnn
    have hfull : nonNull (df.colD "habitat_type") = df.colD "habitat_type" := by
      apply List.filter_eq_self.mpr
      intro c hc
      cases c with
      | num q => rfl
      | str s => rfl
      | null => exact absurd rfl (hnn Cell.null hc)
    obtain ⟨l, hl⟩ := Option.isSome_iff_exists.mp hh
    have hcolD : df.colD "habitat_type" = l := by
      unfold DataFrame.colD
      rw [hl]
      rfl
    have hlen : l.length = df.nrows := hwf.1 _ (lookupCol_mem df.cols _ l hl)
    rw [hcount, hfull, hcolD, hlen]

/-- A table whose only habitat value is missing. -/
def dfHab : DataFrame := ⟨[("habitat_type", [Cell.null])], 1⟩

/-- Claim C4 is false as stated: with one row whose `habitat_type` is
null, the printed counts sum to 0, not to the row count 1
(`value_counts` silently drops nulls). -/
theorem habitat_counts_counterexample :
    dfHab.hasCol "habitat_type" = true ∧
    geographicAnalysis dfHab = Except.ok ⟨none, some []⟩ ∧
    countsSum ([] : List (Cell × ℕ × Cell)) = 0 ∧
    dfHab.nrows = 1 := by decide

/-- A three-row table with no missing habitat values. -/
def dfHabFull : DataFrame :=
  ⟨[("habitat_type",
    [Cell.str "Salt Lake", Cell.str "Salt Lake", Cell.str "Lagoon"])], 3⟩

/-- Witness for the amended C4. -/
theorem habitat_counts_witness :
    ∃ g hl, geographicAnalysis dfHabFull = Except.ok g ∧ g.habitat = some hl ∧
      countsSum hl = (nonNull (dfHabFull.colD "habitat_type")).length ∧
      (dfHabFull.WF → (∀ c ∈ dfHabFull.colD "habitat_type", c ≠ Cell.null) →
        countsSum hl = dfHabFull.nrows) :=
  habitat_counts_amended dfHabFull (by decide) (by decide)

/-! ## Claim C5 -/

/-- A source table that already has a `growth_rate` column. -/
def dfGrowthSrc : DataFrame :=
  ⟨[("population_2020", [Cell.null]), ("population_2023", [Cell.null]),
    ("growth_rate", [Cell.num 7])], 1⟩

/-- `dfGrowthSrc` after `population_analysis`: the source `growth_rate`
column has been overwritten in place. -/
def dfGrowthOver : DataFrame :=
  ⟨[("population_2020", [Cell.null]), ("population_2023", [Cell.null]),
    ("growth_rate", [Cell.null])], 1⟩

/-- Claim C5 is false as stated: on a source table that already has a
`growth_rate` column, `population_analysis` overwrites that source
column's values. -/
theorem append_only_counterexample :
    dfGrowthSrc.hasCol "growth_rate" = true ∧
    populationAnalysis dfGrowthSrc = Except.ok ⟨dfGrowthOver, none⟩ ∧
    dfGrowthSrc.col? "growth_rate" = some [Cell.num 7] ∧
    dfGrowthOver.col? "growth_rate" = some [Cell.null] := by decide

/-- Claim C5 amended: provided the loaded source data has no column
named `growth_rate`, `population_analysis` only appends the derived
column, never overwriting or removing a source column, and never
changes the row count; the only other write of the pipeline is this
one, all remaining steps read the table only. -/
theorem append_only_amended (df : DataFrame) (hg : df.hasCol "growth_rate" = false) :
    ∀ out, populationAnalysis df = Except.ok out →
      (∀ c, df.hasCol c = true → out.df.col? c = df.col? c) ∧
      (out.df.cols.map Prod.fst = df.cols.map Prod.fst ∨
        out.df.cols.map Prod.fst = df.cols.map Prod.fst ++ ["growth_rate"]) ∧
      out.df.nrows = df.nrows := by
  intro out hout
  rw [populationAnalysis_df df out hout]
  unfold addGrowthRate
  by_cases hb : (df.hasCol "population_2020" && df.hasCol "population_2023") = true
  · rw [if_pos hb]
    have habs : ¬ (lookupCol df.cols "growth_rate").isSome = true := by
      intro hcontra
      have : df.hasCol "growth_rate" = true := hcontra
      rw [hg] at this
      exact Bool.false_ne_true this
    refine ⟨?_, Or.inr (names_setCol_absent df "growth_rate" _ habs), nrows_setCol df _ _⟩
    intro c hc
    have hcne : c ≠ "growth_rate" := by
      intro hceq
      rw [hceq, hg] at hc
      exact Bool.false_ne_true hc
    exact col?_setCol_other df "growth_rate" _ c hcne
  · rw [if_neg hb]
    exact ⟨fun c _ => rfl, Or.inl rfl, rfl⟩

/-- Witness for the amended C5 on the spec's example table (which has
no source `growth_rate` column). -/
theorem append_only_amended_witness :
    (∀ c, dfC1.hasCol c = true →
      (PopResult.mk (addGrowthRate dfC1) none).df.col? c = dfC1.col? c) ∧
    ((PopResult.mk (addGrowthRate dfC1) none).df.cols.map Prod.fst =
        dfC1.cols.map Prod.fst ∨
      (PopResult.mk (addGrowthRate dfC1) none).df.cols.map Prod.fst =
        dfC1.cols.map Prod.fst ++ ["growth_rate"]) ∧
    (PopResult.mk (addGrowthRate dfC1) none).df.nrows = dfC1.nrows :=
  append_only_amended dfC1 (by decide) ⟨addGrowthRate dfC1, none⟩
    (by rw [populationAnalysis_ok_of dfC1 (fun h => absurd h (by decide)),
      if_neg (by decide)])

/-! ## Claim C6 -/

/-- Claim C6: whenever the full pipeline completes on a dataset, the
report it writes is the fixed template with the dataset's record count
as its only dataset-derived value; a second run on the same input
therefore writes byte-identical report text. -/
theorem report_deterministic (df : DataFrame) (files : List String) (r : String)
    (h : runFullAnalysis df = Except.ok (files, r)) :
    r = reportTemplate df.nrows ∧
    ∀ files2 r2, runFullAnalysis df = Except.ok (files2, r2) → r2 = r := by
  constructor
  · unfold runFullAnalysis at h
    rcases hp : populationAnalysis df with e | p
    · simp [hp] at h
    · simp only [hp] at h
      rcases hgg : geographicAnalysis p.df with e | g
      · simp [hgg] at h
      · simp only [hgg] at h
        rcases hst : statisticalTests p.df with e | u
        · simp [hst] at h
        · simp only [hst] at h
          rcases hv : generateVisualizations p.df with e | fl
          · simp [hv] at h
          · simp only [hv, Except.ok.injEq, Prod.mk.injEq] at h
            have hr : r = generateReport p.df := h.2.symm
            have hrep : generateReport p.df = reportTemplate p.df.nrows := rfl
            rw [hr, hrep, populationAnalysis_df df p hp, nrows_addGrowthRate]
  · intro files2 r2 h2
    rw [h] at h2
    simp only [Except.ok.injEq, Prod.mk.injEq] at h2
    exact h2.2.symm

set_option maxRecDepth 8000

/-- A loadable table that lets every pipeline step complete. -/
def dfStats : DataFrame :=
  ⟨[("population_2023", [Cell.num 1, Cell.num 2, Cell.num 3])], 3⟩

/-- Witness for C6: a complete pipeline run whose report is the
template at record count 3. -/
theorem report_deterministic_witness :
    reportTemplate 3 = reportTemplate dfStats.nrows ∧
    ∀ files2 r2, runFullAnalysis dfStats = Except.ok (files2, r2) →
      r2 = reportTemplate 3 :=
  report_deterministic dfStats ["outputs/analysis_report.txt"] (reportTemplate 3)
    (by decide)
